import Mathlib

/-!
Verification development for the tomato-ai-backend service.

The repository contains four snapshots of the same Express/PostgreSQL backend:
`server.js` and the three unnamed files `part_000`, `part_001`, `part_002`.
We shallowly embed the parts of the code relevant to pricing, the points
ledger, settings merging/caching, maintenance gating and authentication, and
prove or refute the specification's claims about them.

Conventions:
- JSON documents are modelled by the inductive `Tomato.Json`; JS objects are
  association lists in insertion order, and JS `for (const key in overrides)`
  iteration with assignment is modelled by mapping existing keys in place and
  appending fresh keys.
- SQL `INTEGER` columns (user points, costs) are modelled as `Int`.
- The external generation provider is an oracle parameter
  (`Tomato.ProviderOutcome`) describing what the handler observes from the
  awaited SDK call: a usable result, a safety block, a resolved-but-empty
  response, or a thrown transport/provider error.
- A handler is a pure function from its inputs (including the oracle) to its
  HTTP-level response together with the state it durably commits; a SQL
  `ROLLBACK` is modelled by returning the pre-transaction state.
-/

namespace Tomato

/-- JSON-like documents, as stored in the `settings` table and compiled into
`defaultSettings`.  Objects are association lists of key/value pairs in
insertion order. -/
inductive Json where
  | null : Json
  | bool : Bool → Json
  | num : Int → Json
  | str : String → Json
  | arr : List Json → Json
  | obj : List (String × Json) → Json
deriving Repr

/-- First-match association-list lookup, the model of JS property access
`o[key]` on an object with (necessarily unique) keys. -/
def lookupKey : List (String × Json) → String → Option Json
  | [], _ => none
  | e :: rest, k => if e.1 = k then some e.2 else lookupKey rest k

/-- `isObject` from part_002 lines 215-217: a non-array, non-null object. -/
def Json.isObj : Json → Bool
  | .obj _ => true
  | _ => false

/-- Property access on a document: `j[k]` when `j` is an object. -/
def Json.get? : Json → String → Option Json
  | .obj es, k => lookupKey es k
  | _, _ => none

/-- Looks a value up along a path of keys. -/
def getPath : Json → List String → Option Json
  | j, [] => some j
  | j, k :: rest =>
    match j.get? k with
    | some v => getPath v rest
    | none => none

mutual

/-- `deepMerge(defaults, overrides)` from part_002 lines 225-237: start from a
copy of `defaults`; for each key of `overrides`, recursively merge when both
sides hold objects, otherwise let the override value replace the default
wholesale.  Keys of `overrides` absent from `defaults` are appended in
iteration order. -/
def deepMerge : Json → Json → Json
  | .obj ds, .obj os =>
    .obj (mergeEntries ds os ++ os.filter (fun e => (lookupKey ds e.1).isNone))
  | _, o => o
termination_by d _ => sizeOf d
decreasing_by all_goals simp_wf

/-- The in-place updates performed on the copied `defaults` entries by the
`for (const key in overrides)` loop of `deepMerge`. -/
def mergeEntries : List (String × Json) → List (String × Json) → List (String × Json)
  | [], _ => []
  | (k, dv) :: rest, os =>
    (k, match lookupKey os k with
        | none => dv
        | some ov => if dv.isObj && ov.isObj then deepMerge dv ov else ov)
      :: mergeEntries rest os
termination_by l _ => sizeOf l
decreasing_by all_goals simp_wf <;> omega

end

/-- How one `overrides` entry combines with the `defaults` value stored under
the same key (a reformulation of the loop body of `deepMerge`). -/
def mergeVal (dv : Json) : Option Json → Json
  | none => dv
  | some ov => if dv.isObj && ov.isObj then deepMerge dv ov else ov

mutual

/-- Shape-compatibility of an overrides document with a defaults document:
wherever the defaults hold an object and the overrides define the same key,
the overriding value is itself an object (recursively).  Persisted settings
documents written by the admin UI have this shape. -/
def compat : Json → Json → Bool
  | .obj ds, .obj os => compatEntries ds os
  | .obj _, _ => false
  | _, _ => true
termination_by _ o => sizeOf o
decreasing_by all_goals simp_wf

/-- `compat` checked entrywise over the overrides object. -/
def compatEntries : List (String × Json) → List (String × Json) → Bool
  | _, [] => true
  | ds, (k, ov) :: rest =>
    (match lookupKey ds k with
     | none => true
     | some dv => if dv.isObj then compat dv ov else true) && compatEntries ds rest
termination_by _ l => sizeOf l
decreasing_by all_goals simp_wf <;> omega

end

/-- The shallow merge `{ ...defaultSettings, ...dbSettings }` used by
`fetchSettingsFromDB` in server.js lines 442-456: every top-level key of the
persisted document replaces the default value wholesale, with no recursion
into nested objects. -/
def spreadMerge : Json → Json → Json
  | .obj ds, .obj os =>
    .obj ((ds.map fun e => (e.1, (lookupKey os e.1).getD e.2))
      ++ os.filter (fun e => (lookupKey ds e.1).isNone))
  | _, o => o


/-- The compiled-in `defaultSettings` document of server.js lines 325-437. -/
def serverDefaultSettings : Json :=
  Json.obj [
      ("costs", Json.obj [
        ("imageEdit", Json.num 2),
        ("imageCreate", Json.num 5),
        ("textToSpeech", Json.num 1),
        ("dailyRewardPoints", Json.num 10),
        ("referralBonus", Json.num 50),
        ("imageEdit_noWatermark", Json.num 8),
        ("imageCreate_noWatermark", Json.num 15),
        ("contentRewrite", Json.num 1),
        ("tweetGenerator", Json.num 1)]),
      ("theme", Json.obj [
        ("logoUrl", Json.str "https://i.ibb.co/mH2WvTz/tomato-logo.png"),
        ("logoWidth", Json.num 150),
        ("logoHeight", Json.num 40),
        ("primaryColor", Json.str "#FF6B6B"),
        ("secondaryColor", Json.str "#2EC4B6"),
        ("navbarColor", Json.str "#FFFFFF"),
        ("navTextColor", Json.str "#2A323C"),
        ("buttonPadding", Json.num 8),
        ("sliderHeight", Json.num 450)]),
      ("content", Json.obj [
        ("siteNameAr", Json.str "Tomato AI"),
        ("siteNameEn", Json.str "Tomato AI"),
        ("slider", Json.obj [
          ("slide1", Json.obj [
            ("image", Json.str "https://i.ibb.co/V9Z2xN3/slide1.png"),
            ("title_ar", Json.str "إنشاء صور بالذكاء الاصطناعي"),
            ("title_en", Json.str "AI Image Generation"),
            ("text_ar", Json.str "حوّل كلماتك إلى صور مذهلة. أطلق العنان لإبداعك."),
            ("text_en", Json.str "Turn your words into amazing images. Unleash your creativity.")]),
          ("slide2", Json.obj [
            ("image", Json.str "https://i.ibb.co/gZk8zM4/slide2.png"),
            ("title_ar", Json.str "تعديل احترافي للصور"),
            ("title_en", Json.str "Professional Image Editing"),
            ("text_ar", Json.str "صف التعديل الذي تريده، ودع الذكاء الاصطناعي يقوم بالباقي."),
            ("text_en", Json.str "Describe the edit you want, and let the AI do the rest.")]),
          ("slide3", Json.obj [
            ("image", Json.str "https://i.ibb.co/c1xX6gQ/slide3.png"),
            ("title_ar", Json.str "تعليق صوتي فوري"),
            ("title_en", Json.str "Instant Voiceovers"),
            ("text_ar", Json.str "حوّل أي نص إلى تعليق صوتي طبيعي بلهجات متعددة."),
            ("text_en", Json.str "Convert any text into a natural voiceover in multiple dialects.")])]),
        ("cta", Json.obj [
          ("title_ar", Json.str "انضم إلى آلاف المبدعين"),
          ("title_en", Json.str "Join Thousands of Creators"),
          ("subtitle_ar", Json.str "أطلق العنان لإمكانياتك مع أدوات الذكاء الاصطناعي سهلة الاستخدام."),
          ("subtitle_en", Json.str "Unlock your potential with easy-to-use AI tools."),
          ("button_ar", Json.str "ابدأ مجانًا"),
          ("button_en", Json.str "Start for Free")]),
        ("benefits", Json.obj [
          ("title_ar", Json.str "لماذا تختار Tomato AI؟"),
          ("title_en", Json.str "Why Choose Tomato AI?"),
          ("items", Json.arr [
            Json.obj [
              ("icon", Json.str "⚡️"),
              ("title_ar", Json.str "نتائج فورية"),
              ("title_en", Json.str "Instant Results"),
              ("text_ar", Json.str "احصل على صور ومحتوى وصوت عالي الجودة في ثوانٍ."),
              ("text_en", Json.str "Get high-quality images, content, and audio in seconds.")],
            Json.obj [
              ("icon", Json.str "💡"),
              ("title_ar", Json.str "سهولة الاستخدام"),
              ("title_en", Json.str "Easy to Use"),
              ("text_ar", Json.str "واجهة بسيطة وبديهية مصممة للجميع، لا تتطلب خبرة فنية."),
              ("text_en", Json.str "A simple and intuitive interface designed for everyone, no technical expertise required.")],
            Json.obj [
              ("icon", Json.str "💰"),
              ("title_ar", Json.str "نظام نقاط مرن"),
              ("title_en", Json.str "Flexible Points System"),
              ("text_ar", Json.str "استخدم النقاط للوصول إلى الميزات المتقدمة أو اكسبها مجانًا."),
              ("text_en", Json.str "Use points to access premium features or earn them for free.")],
            Json.obj [
              ("icon", Json.str "🌍"),
              ("title_ar", Json.str "دعم اللغة العربية"),
              ("title_en", Json.str "Arabic Language Support"),
              ("text_ar", Json.str "تجربة كاملة مصممة للمستخدمين العرب، من الواجهة إلى النتائج."),
              ("text_en", Json.str "A complete experience designed for Arab users, from the interface to the results.")]])]),
        ("useCases", Json.obj [
          ("title_ar", Json.str "مثالي لـ..."),
          ("title_en", Json.str "Perfect For..."),
          ("items", Json.arr [
            Json.obj [
              ("icon", Json.str "📈"),
              ("title_ar", Json.str "المسوقين"),
              ("title_en", Json.str "Marketers"),
              ("text_ar", Json.str "أنشئ محتوى إعلاني جذاب وصورًا فريدة لحملاتك."),
              ("text_en", Json.str "Create engaging ad content and unique images for your campaigns.")],
            Json.obj [
              ("icon", Json.str "✍️"),
              ("title_ar", Json.str "صناع المحتوى"),
              ("title_en", Json.str "Content Creators"),
              ("text_ar", Json.str "أعد صياغة المقالات، ولّد أفكارًا، وأضف تعليقات صوتية احترافية."),
              ("text_en", Json.str "Rewrite articles, generate ideas, and add professional voiceovers.")],
            Json.obj [
              ("icon", Json.str "🎨"),
              ("title_ar", Json.str "المصممين"),
              ("title_en", Json.str "Designers"),
              ("text_ar", Json.str "احصل على الإلهام وأنشئ مفاهيم بصرية بسرعة مذهلة."),
              ("text_en", Json.str "Get inspiration and create visual concepts with incredible speed.")],
            Json.obj [
              ("icon", Json.str "🎓"),
              ("title_ar", Json.str "الطلاب والباحثين"),
              ("title_en", Json.str "Students & Researchers"),
              ("text_ar", Json.str "لخص النصوص الطويلة وأعد صياغة الفقرات لتجنب الانتحال."),
              ("text_en", Json.str "Summarize long texts and rephrase paragraphs to avoid plagiarism.")]])]),
        ("testimonials", Json.obj [
          ("title_ar", Json.str "ماذا يقول المستخدمون عنا؟"),
          ("title_en", Json.str "What Our Users Say"),
          ("items", Json.arr [
            Json.obj [
              ("id", Json.num 1),
              ("quote_ar", Json.str "أداة مذهلة! ساعدتني في إنشاء صور لحملتي التسويقية بسرعة لا تصدق. النتائج كانت أفضل مما توقعت."),
              ("quote_en", Json.str "Amazing tool! It helped me create images for my marketing campaign with incredible speed. The results were better than I expected."),
              ("name_ar", Json.str "سارة عبدالله"),
              ("name_en", Json.str "Sara Abdullah"),
              ("role_ar", Json.str "مديرة تسويق"),
              ("role_en", Json.str "Marketing Manager"),
              ("avatarUrl", Json.str "https://i.ibb.co/GvxB34T/avatar1.jpg")],
            Json.obj [
              ("id", Json.num 2),
              ("quote_ar", Json.str "خدمة تحويل النص إلى صوت هي الأفضل التي جربتها، خاصة باللهجة الخليجية. الصوت طبيعي جدًا."),
              ("quote_en", Json.str "The text-to-speech service is the best I've tried, especially the Gulf dialect. The voice is very natural."),
              ("name_ar", Json.str "محمد الغامدي"),
              ("name_en", Json.str "Mohammed Al-Ghamdi"),
              ("role_ar", Json.str "صانع محتوى"),
              ("role_en", Json.str "Content Creator"),
              ("avatarUrl", Json.str "https://i.ibb.co/yqgR2s7/avatar2.jpg")],
            Json.obj [
              ("id", Json.num 3),
              ("quote_ar", Json.str "كمصمم، أستخدم مولد الصور يوميًا للحصول على الإلهام. إنه يوفر عليّ ساعات من البحث."),
              ("quote_en", Json.str "As a designer, I use the image generator daily for inspiration. It saves me hours of searching."),
              ("name_ar", Json.str "خالد المصري"),
              ("name_en", Json.str "Khaled El-Masry"),
              ("role_ar", Json.str "مصمم جرافيك"),
              ("role_en", Json.str "Graphic Designer"),
              ("avatarUrl", Json.str "https://i.ibb.co/qD2v4T3/avatar3.jpg")],
            Json.obj [
              ("id", Json.num 4),
              ("quote_ar", Json.str "واجهة سهلة وبسيطة، ونظام النقاط واضح وعادل. أحببت التجربة وسأستمر في استخدامها."),
              ("quote_en", Json.str "Easy and simple interface, and the points system is clear and fair. I loved the experience and will continue to use it."),
              ("name_ar", Json.str "فاطمة علي"),
              ("name_en", Json.str "Fatima Ali"),
              ("role_ar", Json.str "مدونة"),
              ("role_en", Json.str "Blogger"),
              ("avatarUrl", Json.str "https://i.ibb.co/N1Xq3t3/avatar4.jpg")],
            Json.obj [
              ("id", Json.num 5),
              ("quote_ar", Json.str "أداة إعادة الصياغة ممتازة للطلاب. ساعدتني في تحسين كتاباتي الأكاديمية بشكل كبير."),
              ("quote_en", Json.str "The rewriting tool is excellent for students. It has significantly helped me improve my academic writing."),
              ("name_ar", Json.str "عمر الشريف"),
              ("name_en", Json.str "Omar Sharif"),
              ("role_ar", Json.str "طالب جامعي"),
              ("role_en", Json.str "University Student"),
              ("avatarUrl", Json.str "https://i.ibb.co/9h7r2Tf/avatar5.jpg")],
            Json.obj [
              ("id", Json.num 6),
              ("quote_ar", Json.str "كنت مترددًا في البداية، لكن جودة الصور التي تم إنشاؤها أبهرتني. خدمة عملاء سريعة ومتعاونة أيضًا."),
              ("quote_en", Json.str "I was hesitant at first, but the quality of the generated images amazed me. The customer service is also fast and helpful."),
              ("name_ar", Json.str "ليلى الخوري"),
              ("name_en", Json.str "Layla El Khoury"),
              ("role_ar", Json.str "مصورة فوتوغرافية"),
              ("role_en", Json.str "Photographer"),
              ("avatarUrl", Json.str "https://i.ibb.co/gDFtNmd/avatar6.jpg")],
            Json.obj [
              ("id", Json.num 7),
              ("quote_ar", Json.str "أفضل استثمار قمت به لعملي. يوفر الوقت والجهد ويقدم نتائج احترافية لا مثيل لها."),
              ("quote_en", Json.str "The best investment I've made for my business. It saves time, effort, and delivers unparalleled professional results."),
              ("name_ar", Json.str "يوسف منصور"),
              ("name_en", Json.str "Youssef Mansour"),
              ("role_ar", Json.str "رائد أعمال"),
              ("role_en", Json.str "Entrepreneur"),
              ("avatarUrl", Json.str "https://i.ibb.co/SNk3zS1/avatar7.jpg")]])]),
        ("faq", Json.obj [
          ("title_ar", Json.str "أسئلة شائعة"),
          ("title_en", Json.str "Frequently Asked Questions"),
          ("items", Json.arr [
            Json.obj [
              ("id", Json.num 1),
              ("q_ar", Json.str "كيف أحصل على النقاط؟"),
              ("q_en", Json.str "How do I get points?"),
              ("a_ar", Json.str "يمكنك شراء النقاط من المتجر، أو الحصول عليها مجانًا من خلال المكافأة اليومية ودعوة الأصدقاء."),
              ("a_en", Json.str "You can buy points from the store, or get them for free through the daily reward and by inviting friends.")],
            Json.obj [
              ("id", Json.num 2),
              ("q_ar", Json.str "هل يمكنني استخدام الصور التي أنشئها لأغراض تجارية؟"),
              ("q_en", Json.str "Can I use the images I create for commercial purposes?"),
              ("a_ar", Json.str "نعم، جميع الصور التي تنشئها بدون علامة مائية هي ملكك ولك الحرية في استخدامها لأي غرض، بما في ذلك الأغراض التجارية."),
              ("a_en", Json.str "Yes, all images you create without a watermark are yours to use for any purpose, including commercial use.")],
            Json.obj [
              ("id", Json.num 3),
              ("q_ar", Json.str "ما هي اللغات واللهجات المتاحة لتحويل النص إلى صوت؟"),
              ("q_en", Json.str "What languages and dialects are available for text-to-speech?"),
              ("a_ar", Json.str "نحن ندعم اللغة العربية الفصحى ومجموعة متنوعة من اللهجات العربية الشائعة مثل الخليجية والمصرية والشامية."),
              ("a_en", Json.str "We support Standard Arabic and a variety of common Arabic dialects such as Gulf, Egyptian, and Levantine.")],
            Json.obj [
              ("id", Json.num 4),
              ("q_ar", Json.str "هل بياناتي آمنة؟"),
              ("q_en", Json.str "Is my data secure?"),
              ("a_ar", Json.str "نعم، نحن نأخذ خصوصيتك على محمل الجد. يتم تأمين جميع الاتصالات وتشفير بياناتك الحساسة. نحن لا نشارك بياناتك مع أي طرف ثالث."),
              ("a_en", Json.str "Yes, we take your privacy very seriously. All communications are secured and your sensitive data is encrypted. We do not share your data with any third parties.")]])]),
        ("finalCta", Json.obj [
          ("title_ar", Json.str "هل أنت مستعد للبدء؟"),
          ("title_en", Json.str "Ready to Get Started?"),
          ("text_ar", Json.str "أنشئ حسابك المجاني اليوم وابدأ في تحويل أفكارك إلى حقيقة."),
          ("text_en", Json.str "Create your free account today and start turning your ideas into reality."),
          ("button_ar", Json.str "أنشئ حسابك الآن"),
          ("button_en", Json.str "Create Your Account Now")])]),
      ("store", Json.obj [
        ("packages", Json.arr [
          Json.obj [
            ("id", Json.num 1),
            ("points", Json.num 100),
            ("price", Json.num 5)],
          Json.obj [
            ("id", Json.num 2),
            ("points", Json.num 250),
            ("price", Json.num 10)],
          Json.obj [
            ("id", Json.num 3),
            ("points", Json.num 700),
            ("price", Json.num 25)],
          Json.obj [
            ("id", Json.num 4),
            ("points", Json.num 1500),
            ("price", Json.num 50)]])]),
      ("announcement", Json.obj [
        ("enabled", Json.bool false),
        ("imageUrl", Json.str ""),
        ("contentAr", Json.str "<strong>عرض خاص!</strong> احصل على خصم 50% على جميع باقات النقاط لمدة 48 ساعة فقط!"),
        ("contentEn", Json.str "<strong>Special Offer!</strong> Get a 50% discount on all point packages for 48 hours only!"),
        ("textColor", Json.str "#000000"),
        ("fontSize", Json.num 16)]),
      ("maintenance", Json.obj [
        ("enabled", Json.bool false),
        ("message_en", Json.str "We are currently performing scheduled maintenance. We should be back online shortly. Thank you for your patience!"),
        ("message_ar", Json.str "نقوم حاليًا بإجراء صيانة مجدولة. سنعود للعمل قريبًا. شكرًا لصبركم!")])]

/-- The compiled-in `defaultSettings` document of part_002 lines 90-204. -/
def p2DefaultSettings : Json :=
  Json.obj [
      ("costs", Json.obj [
        ("imageEdit", Json.num 2),
        ("imageCreate", Json.num 5),
        ("textToSpeech", Json.num 1),
        ("dailyRewardPoints", Json.num 10),
        ("referralBonus", Json.num 50),
        ("imageEdit_noWatermark", Json.num 8),
        ("imageCreate_noWatermark", Json.num 15),
        ("contentRewrite", Json.num 1),
        ("tweetGenerator", Json.num 1)]),
      ("theme", Json.obj [
        ("logoUrl", Json.str "https://i.ibb.co/mH2WvTz/tomato-logo.png"),
        ("logoWidth", Json.num 150),
        ("logoHeight", Json.num 40),
        ("primaryColor", Json.str "#FF6B6B"),
        ("secondaryColor", Json.str "#2EC4B6"),
        ("navbarColor", Json.str "#FFFFFF"),
        ("navTextColor", Json.str "#2A323C"),
        ("buttonPadding", Json.num 8),
        ("sliderHeight", Json.num 450)]),
      ("content", Json.obj [
        ("siteNameAr", Json.str "Tomato AI"),
        ("siteNameEn", Json.str "Tomato AI"),
        ("slider", Json.obj [
          ("slide1", Json.obj [
            ("image", Json.str "https://i.ibb.co/V9Z2xN3/slide1.png"),
            ("title_ar", Json.str "إنشاء صور بالذكاء الاصطناعي"),
            ("title_en", Json.str "AI Image Generation"),
            ("text_ar", Json.str "حوّل كلماتك إلى صور مذهلة. أطلق العنان لإبداعك."),
            ("text_en", Json.str "Turn your words into amazing images. Unleash your creativity.")]),
          ("slide2", Json.obj [
            ("image", Json.str "https://i.ibb.co/gZk8zM4/slide2.png"),
            ("title_ar", Json.str "تعديل احترافي للصور"),
            ("title_en", Json.str "Professional Image Editing"),
            ("text_ar", Json.str "صف التعديل الذي تريده، ودع الذكاء الاصطناعي يقوم بالباقي."),
            ("text_en", Json.str "Describe the edit you want, and let the AI do the rest.")]),
          ("slide3", Json.obj [
            ("image", Json.str "https://i.ibb.co/c1xX6gQ/slide3.png"),
            ("title_ar", Json.str "تعليق صوتي فوري"),
            ("title_en", Json.str "Instant Voiceovers"),
            ("text_ar", Json.str "حوّل أي نص إلى تعليق صوتي طبيعي بلهجات متعددة."),
            ("text_en", Json.str "Convert any text into a natural voiceover in multiple dialects.")])]),
        ("cta", Json.obj [
          ("title_ar", Json.str "انضم إلى آلاف المبدعين"),
          ("title_en", Json.str "Join Thousands of Creators"),
          ("subtitle_ar", Json.str "أطلق العنان لإمكانياتك مع أدوات الذكاء الاصطناعي سهلة الاستخدام."),
          ("subtitle_en", Json.str "Unlock your potential with easy-to-use AI tools."),
          ("button_ar", Json.str "ابدأ مجانًا"),
          ("button_en", Json.str "Start for Free")]),
        ("benefits", Json.obj [
          ("title_ar", Json.str "لماذا تختار Tomato AI؟"),
          ("title_en", Json.str "Why Choose Tomato AI?"),
          ("items", Json.arr [
            Json.obj [
              ("icon", Json.str "⚡️"),
              ("title_ar", Json.str "نتائج فورية"),
              ("title_en", Json.str "Instant Results"),
              ("text_ar", Json.str "احصل على صور ومحتوى وصوت عالي الجودة في ثوانٍ."),
              ("text_en", Json.str "Get high-quality images, content, and audio in seconds.")],
            Json.obj [
              ("icon", Json.str "💡"),
              ("title_ar", Json.str "سهولة الاستخدام"),
              ("title_en", Json.str "Easy to Use"),
              ("text_ar", Json.str "واجهة بسيطة وبديهية مصممة للجميع، لا تتطلب خبرة فنية."),
              ("text_en", Json.str "A simple and intuitive interface designed for everyone, no technical expertise required.")],
            Json.obj [
              ("icon", Json.str "💰"),
              ("title_ar", Json.str "نظام نقاط مرن"),
              ("title_en", Json.str "Flexible Points System"),
              ("text_ar", Json.str "استخدم النقاط للوصول إلى الميزات المتقدمة أو اكسبها مجانًا."),
              ("text_en", Json.str "Use points to access premium features or earn them for free.")],
            Json.obj [
              ("icon", Json.str "🌍"),
              ("title_ar", Json.str "دعم اللغة العربية"),
              ("title_en", Json.str "Arabic Language Support"),
              ("text_ar", Json.str "تجربة كاملة مصممة للمستخدمين العرب، من الواجهة إلى النتائج."),
              ("text_en", Json.str "A complete experience designed for Arab users, from the interface to the results.")]])]),
        ("useCases", Json.obj [
          ("title_ar", Json.str "مثالي لـ..."),
          ("title_en", Json.str "Perfect For..."),
          ("items", Json.arr [
            Json.obj [
              ("icon", Json.str "📈"),
              ("title_ar", Json.str "المسوقين"),
              ("title_en", Json.str "Marketers"),
              ("text_ar", Json.str "أنشئ محتوى إعلاني جذاب وصورًا فريدة لحملاتك."),
              ("text_en", Json.str "Create engaging ad content and unique images for your campaigns.")],
            Json.obj [
              ("icon", Json.str "✍️"),
              ("title_ar", Json.str "صناع المحتوى"),
              ("title_en", Json.str "Content Creators"),
              ("text_ar", Json.str "أعد صياغة المقالات، ولّد أفكارًا، وأضف تعليقات صوتية احترافية."),
              ("text_en", Json.str "Rewrite articles, generate ideas, and add professional voiceovers.")],
            Json.obj [
              ("icon", Json.str "🎨"),
              ("title_ar", Json.str "المصممين"),
              ("title_en", Json.str "Designers"),
              ("text_ar", Json.str "احصل على الإلهام وأنشئ مفاهيم بصرية بسرعة مذهلة."),
              ("text_en", Json.str "Get inspiration and create visual concepts with incredible speed.")],
            Json.obj [
              ("icon", Json.str "🎓"),
              ("title_ar", Json.str "الطلاب والباحثين"),
              ("title_en", Json.str "Students & Researchers"),
              ("text_ar", Json.str "لخص النصوص الطويلة وأعد صياغة الفقرات لتجنب الانتحال."),
              ("text_en", Json.str "Summarize long texts and rephrase paragraphs to avoid plagiarism.")]])]),
        ("testimonials", Json.obj [
          ("title_ar", Json.str "ماذا يقول المستخدمون عنا؟"),
          ("title_en", Json.str "What Our Users Say"),
          ("items", Json.arr [
            Json.obj [
              ("id", Json.num 1),
              ("quote_ar", Json.str "أداة مذهلة! ساعدتني في إنشاء صور لحملتي التسويقية بسرعة لا تصدق. النتائج كانت أفضل مما توقعت."),
              ("quote_en", Json.str "Amazing tool! It helped me create images for my marketing campaign with incredible speed. The results were better than I expected."),
              ("name_ar", Json.str "سارة عبدالله"),
              ("name_en", Json.str "Sara Abdullah"),
              ("role_ar", Json.str "مديرة تسويق"),
              ("role_en", Json.str "Marketing Manager"),
              ("avatarUrl", Json.str "https://i.ibb.co/GvxB34T/avatar1.jpg")],
            Json.obj [
              ("id", Json.num 2),
              ("quote_ar", Json.str "خدمة تحويل النص إلى صوت هي الأفضل التي جربتها، خاصة باللهجة الخليجية. الصوت طبيعي جدًا."),
              ("quote_en", Json.str "The text-to-speech service is the best I've tried, especially the Gulf dialect. The voice is very natural."),
              ("name_ar", Json.str "محمد الغامدي"),
              ("name_en", Json.str "Mohammed Al-Ghamdi"),
              ("role_ar", Json.str "صانع محتوى"),
              ("role_en", Json.str "Content Creator"),
              ("avatarUrl", Json.str "https://i.ibb.co/yqgR2s7/avatar2.jpg")],
            Json.obj [
              ("id", Json.num 3),
              ("quote_ar", Json.str "كمصمم، أستخدم مولد الصور يوميًا للحصول على الإلهام. إنه يوفر عليّ ساعات من البحث."),
              ("quote_en", Json.str "As a designer, I use the image generator daily for inspiration. It saves me hours of searching."),
              ("name_ar", Json.str "خالد المصري"),
              ("name_en", Json.str "Khaled El-Masry"),
              ("role_ar", Json.str "مصمم جرافيك"),
              ("role_en", Json.str "Graphic Designer"),
              ("avatarUrl", Json.str "https://i.ibb.co/qD2v4T3/avatar3.jpg")],
            Json.obj [
              ("id", Json.num 4),
              ("quote_ar", Json.str "واجهة سهلة وبسيطة، ونظام النقاط واضح وعادل. أحببت التجربة وسأستمر في استخدامها."),
              ("quote_en", Json.str "Easy and simple interface, and the points system is clear and fair. I loved the experience and will continue to use it."),
              ("name_ar", Json.str "فاطمة علي"),
              ("name_en", Json.str "Fatima Ali"),
              ("role_ar", Json.str "مدونة"),
              ("role_en", Json.str "Blogger"),
              ("avatarUrl", Json.str "https://i.ibb.co/N1Xq3t3/avatar4.jpg")],
            Json.obj [
              ("id", Json.num 5),
              ("quote_ar", Json.str "أداة إعادة الصياغة ممتازة للطلاب. ساعدتني في تحسين كتاباتي الأكاديمية بشكل كبير."),
              ("quote_en", Json.str "The rewriting tool is excellent for students. It has significantly helped me improve my academic writing."),
              ("name_ar", Json.str "عمر الشريف"),
              ("name_en", Json.str "Omar Sharif"),
              ("role_ar", Json.str "طالب جامعي"),
              ("role_en", Json.str "University Student"),
              ("avatarUrl", Json.str "https://i.ibb.co/9h7r2Tf/avatar5.jpg")],
            Json.obj [
              ("id", Json.num 6),
              ("quote_ar", Json.str "كنت مترددًا في البداية، لكن جودة الصور التي تم إنشاؤها أبهرتني. خدمة عملاء سريعة ومتعاونة أيضًا."),
              ("quote_en", Json.str "I was hesitant at first, but the quality of the generated images amazed me. The customer service is also fast and helpful."),
              ("name_ar", Json.str "ليلى الخوري"),
              ("name_en", Json.str "Layla El Khoury"),
              ("role_ar", Json.str "مصورة فوتوغرافية"),
              ("role_en", Json.str "Photographer"),
              ("avatarUrl", Json.str "https://i.ibb.co/gDFtNmd/avatar6.jpg")],
            Json.obj [
              ("id", Json.num 7),
              ("quote_ar", Json.str "أفضل استثمار قمت به لعملي. يوفر الوقت والجهد ويقدم نتائج احترافية لا مثيل لها."),
              ("quote_en", Json.str "The best investment I've made for my business. It saves time, effort, and delivers unparalleled professional results."),
              ("name_ar", Json.str "يوسف منصور"),
              ("name_en", Json.str "Youssef Mansour"),
              ("role_ar", Json.str "رائد أعمال"),
              ("role_en", Json.str "Entrepreneur"),
              ("avatarUrl", Json.str "https://i.ibb.co/SNk3zS1/avatar7.jpg")],
            Json.obj [
              ("id", Json.num 8),
              ("quote_ar", Json.str "أدير متجرًا صغيرًا، وهذه الأداة هي منقذي لإنشاء منشورات وسائل التواصل الاجتماعي. مولد التغريدات عبقري!"),
              ("quote_en", Json.str "I run a small shop, and this tool is my savior for creating social media posts. The tweet generator is genius!"),
              ("name_ar", Json.str "نادية حسن"),
              ("name_en", Json.str "Nadia Hassan"),
              ("role_ar", Json.str "صاحبة متجر"),
              ("role_en", Json.str "Shop Owner"),
              ("avatarUrl", Json.str "https://i.ibb.co/8mr1f81/avatar8.jpg")],
            Json.obj [
              ("id", Json.num 9),
              ("quote_ar", Json.str "أستخدم ميزة تحويل النص إلى صوت لإنشاء مواد تعليمية لطلابي. اللهجات المختلفة تجعل المحتوى أكثر جاذبية."),
              ("quote_en", Json.str "I use the text-to-speech feature to create educational materials for my students. The different dialects make the content much more engaging."),
              ("name_ar", Json.str "أحمد إبراهيم"),
              ("name_en", Json.str "Ahmed Ibrahim"),
              ("role_ar", Json.str "مدرس"),
              ("role_en", Json.str "Teacher"),
              ("avatarUrl", Json.str "https://i.ibb.co/9vVzqB3/avatar9.jpg")],
            Json.obj [
              ("id", Json.num 10),
              ("quote_ar", Json.str "كمطور، أنا معجب جدًا بمدى سلاسة كل شيء. من الواضح أن هناك الكثير من العمل الجيد وراء هذا المشروع."),
              ("quote_en", Json.str "As a developer, I'm very impressed with how smoothly everything runs. It's clear a lot of good work went into this project."),
              ("name_ar", Json.str "زينب مراد"),
              ("name_en", Json.str "Zainab Murad"),
              ("role_ar", Json.str "مطور برامج"),
              ("role_en", Json.str "Software Developer"),
              ("avatarUrl", Json.str "https://i.ibb.co/J3BzkzM/avatar10.jpg")]])]),
        ("faq", Json.obj [
          ("title_ar", Json.str "أسئلة شائعة"),
          ("title_en", Json.str "Frequently Asked Questions"),
          ("items", Json.arr [
            Json.obj [
              ("id", Json.num 1),
              ("q_ar", Json.str "كيف أحصل على النقاط؟"),
              ("q_en", Json.str "How do I get points?"),
              ("a_ar", Json.str "يمكنك شراء النقاط من المتجر، أو الحصول عليها مجانًا من خلال المكافأة اليومية ودعوة الأصدقاء."),
              ("a_en", Json.str "You can buy points from the store, or get them for free through the daily reward and by inviting friends.")],
            Json.obj [
              ("id", Json.num 2),
              ("q_ar", Json.str "هل يمكنني استخدام الصور التي أنشئها لأغراض تجارية؟"),
              ("q_en", Json.str "Can I use the images I create for commercial purposes?"),
              ("a_ar", Json.str "نعم، جميع الصور التي تنشئها بدون علامة مائية هي ملكك ولك الحرية في استخدامها لأي غرض، بما في ذلك الأغراض التجارية."),
              ("a_en", Json.str "Yes, all images you create without a watermark are yours to use for any purpose, including commercial use.")],
            Json.obj [
              ("id", Json.num 3),
              ("q_ar", Json.str "ما هي اللغات واللهجات المتاحة لتحويل النص إلى صوت؟"),
              ("q_en", Json.str "What languages and dialects are available for text-to-speech?"),
              ("a_ar", Json.str "نحن ندعم اللغة العربية الفصحى ومجموعة متنوعة من اللهجات العربية الشائعة مثل الخليجية والمصرية والشامية."),
              ("a_en", Json.str "We support Standard Arabic and a variety of common Arabic dialects such as Gulf, Egyptian, and Levantine.")],
            Json.obj [
              ("id", Json.num 4),
              ("q_ar", Json.str "هل بياناتي آمنة؟"),
              ("q_en", Json.str "Is my data secure?"),
              ("a_ar", Json.str "نعم، نحن نأخذ خصوصيتك على محمل الجد. يتم تأمين جميع الاتصالات وتشفير بياناتك الحساسة. نحن لا نشارك بياناتك مع أي طرف ثالث."),
              ("a_en", Json.str "Yes, we take your privacy very seriously. All communications are secured and your sensitive data is encrypted. We do not share your data with any third parties.")]])]),
        ("finalCta", Json.obj [
          ("title_ar", Json.str "هل أنت مستعد للبدء؟"),
          ("title_en", Json.str "Ready to Get Started?"),
          ("text_ar", Json.str "أنشئ حسابك المجاني اليوم وابدأ في تحويل أفكارك إلى حقيقة."),
          ("text_en", Json.str "Create your free account today and start turning your ideas into reality."),
          ("button_ar", Json.str "أنشئ حسابك الآن"),
          ("button_en", Json.str "Create Your Account Now")])]),
      ("store", Json.obj [
        ("packages", Json.arr [
          Json.obj [
            ("id", Json.num 1),
            ("points", Json.num 100),
            ("price", Json.num 5)],
          Json.obj [
            ("id", Json.num 2),
            ("points", Json.num 250),
            ("price", Json.num 10)],
          Json.obj [
            ("id", Json.num 3),
            ("points", Json.num 700),
            ("price", Json.num 25)],
          Json.obj [
            ("id", Json.num 4),
            ("points", Json.num 1500),
            ("price", Json.num 50)]])]),
      ("announcement", Json.obj [
        ("enabled", Json.bool false),
        ("imageUrl", Json.str ""),
        ("contentAr", Json.str "<strong>عرض خاص!</strong> احصل على خصم 50% على جميع باقات النقاط لمدة 48 ساعة فقط!"),
        ("contentEn", Json.str "<strong>Special Offer!</strong> Get a 50% discount on all point packages for 48 hours only!"),
        ("textColor", Json.str "#000000"),
        ("fontSize", Json.num 16)]),
      ("maintenance", Json.obj [
        ("enabled", Json.bool false),
        ("message_en", Json.str "We are currently performing scheduled maintenance. We should be back online shortly. Thank you for your patience!"),
        ("message_ar", Json.str "نقوم حاليًا بإجراء صيانة مجدولة. سنعود للعمل قريبًا. شكرًا لصبركم!")])]


/-- What a generate handler observes from the awaited provider SDK call:
`ok` — the call resolved with usable output for the requested modality;
`blocked` — the call resolved but the provider refused on safety/policy
grounds (a block reason and no payload);
`noOutput` — the call resolved without error but returned no usable payload;
`transportError` — the awaited call itself threw (network or API error). -/
inductive ProviderOutcome where
  | ok
  | blocked
  | noOutput
  | transportError
deriving DecidableEq

/-- The request payload fields read by the generate handlers: `payload.type`,
`payload.model`, the text at `payload.contents[0].parts[0].text`, and
`payload.config.responseModalities`. -/
structure Payload where
  type : String
  model : String
  text : String
  modalities : List String

/-- The `settings.costs` fields read by part_000's generate handler
(lines 475-487).  `imageCreate`, `imageEdit`, their no-watermark variants and
`textToSpeech` are accessed directly; `contentRewrite` and `tweetGenerator`
are read with `?? 0`, so they are optional here. -/
structure Costs0 where
  imageEdit : Int
  imageCreate : Int
  textToSpeech : Int
  imageEdit_noWatermark : Int
  imageCreate_noWatermark : Int
  contentRewrite : Option Int
  tweetGenerator : Option Int

/-- The slice of the settings document consulted by part_000's generate
handler. -/
structure Settings0 where
  costs : Costs0

/-- The `currentSettings.costs` fields read by part_002's generate handler
(lines 563-586); every field is read with a `?? literal` fallback, so each is
optional. -/
structure Costs2 where
  imageCreate : Option Int
  imageCreate_noWatermark : Option Int
  imageEdit : Option Int
  imageEdit_noWatermark : Option Int
  textToSpeech : Option Int
  contentRewrite : Option Int
  tweetGenerator : Option Int

/-- Cost resolution of part_000's generate handler (lines 474-487): an
if/else chain over `payload.type` and `payload.model`.  `Math.ceil(n / 100)`
on a natural `n` is `(n + 99) / 100` in truncating natural division.  A
payload matching no branch leaves `cost = 0`. -/
def resolveCost0 (s : Settings0) (removeWatermark : Bool) (p : Payload) : Int :=
  if p.type = "generateImages" then
    (if removeWatermark then s.costs.imageCreate_noWatermark else s.costs.imageCreate)
  else if p.type = "generateContent" && p.model = "gemini-2.5-flash-image" then
    (if removeWatermark then s.costs.imageEdit_noWatermark else s.costs.imageEdit)
  else if p.type = "generateContent" && p.model = "gemini-2.5-flash-preview-tts" then
    (((p.text.length + 99) / 100 : Nat) : Int) * s.costs.textToSpeech
  else if p.type = "rewrite" then s.costs.contentRewrite.getD 0
  else if p.type = "generate-tweets" then s.costs.tweetGenerator.getD 0
  else 0

/-- Cost resolution of part_002's generate handler (lines 563-582): a switch
over `payload.type` with `?? literal` fallbacks; `generateContent` further
branches on `payload.model`, and a model matching neither sub-branch (or an
unknown type) leaves `cost = 0`. -/
def resolveCost2 (c : Costs2) (removeWatermark : Bool) (p : Payload) : Int :=
  if p.type = "generateImages" then
    (if removeWatermark then c.imageCreate_noWatermark.getD 15 else c.imageCreate.getD 5)
  else if p.type = "generateContent" then
    (if p.model = "gemini-2.5-flash-image" then
      (if removeWatermark then c.imageEdit_noWatermark.getD 8 else c.imageEdit.getD 2)
    else if p.model = "gemini-2.5-flash-preview-tts" then
      (((p.text.length + 99) / 100 : Nat) : Int) * c.textToSpeech.getD 1
    else 0)
  else if p.type = "rewrite" then c.contentRewrite.getD 1
  else if p.type = "generate-tweets" then c.tweetGenerator.getD 1
  else 0

/-- HTTP-level outcome of part_000's `POST /api/ai/generate`.
`genFailure` covers both the 400 safety response and the generic 500 of the
catch block — in every such case the transaction was rolled back. -/
inductive Response0 where
  | insufficientPoints
  | invalidOperation
  | success (newPoints : Int)
  | genFailure

/-- The branches of part_000's and part_002's generate switch whose result is
built as `{ text: response.text }`: `rewrite`, `generate-tweets`, and (in
part_000) `generateContent` without IMAGE or AUDIO response modalities.  In
these branches no field of the response is dereferenced, so a blocked or
empty provider response does not throw: `response.text` is simply absent. -/
def textualBranch0 (p : Payload) : Bool :=
  p.type = "rewrite" || p.type = "generate-tweets" ||
    (p.type = "generateContent" && !(p.modalities.contains "IMAGE")
      && !(p.modalities.contains "AUDIO"))

/-- part_000's `POST /api/ai/generate` (lines 455-550): open a transaction,
`SELECT points ... FOR UPDATE` (the `points` argument is that locked read),
resolve the cost, roll back with 402 when `points < cost`, run the provider
switch (its default rolls back with 400), debit and commit on success, roll
back on any thrown provider error.  Returns the response, the committed
points value, and whether the provider was invoked. -/
def generate0 (points : Int) (s : Settings0) (removeWatermark : Bool) (p : Payload)
    (provider : ProviderOutcome) : Response0 × Int × Bool :=
  let cost := resolveCost0 s removeWatermark p
  if points < cost then (.insufficientPoints, points, false)
  else if p.type = "generateImages" || p.type = "generateContent" ||
      p.type = "rewrite" || p.type = "generate-tweets" then
    match provider with
    | .ok => (.success (points - cost), points - cost, true)
    | .transportError => (.genFailure, points, true)
    | .blocked | .noOutput =>
      if textualBranch0 p then (.success (points - cost), points - cost, true)
      else (.genFailure, points, true)
  else (.invalidOperation, points, false)

/-- HTTP-level outcome of part_001's `POST /api/ai/generate`: the 402 check
against the auth snapshot, a committed success showing the re-selected user,
or the 500 of the catch block after `ROLLBACK`. -/
inductive Response1 where
  | insufficientPoints
  | success (userPoints : Int)
  | genError

/-- part_001's `POST /api/ai/generate` (lines 567-625): the cost comes from
`req.body` and is checked against `req.user.points`, the snapshot read by the
auth middleware (`snapshotPoints`), not a locked read of the row
(`dbPoints`).  Inside the transaction the debit runs first, then the
provider call; `generateImages`/`generateContent` throw on a block reason or
missing output, an unknown type throws `Invalid AI operation type`, and any
throw rolls the debit back. -/
def generate1 (snapshotPoints dbPoints cost : Int) (ptype : String)
    (provider : ProviderOutcome) : Response1 × Int :=
  if snapshotPoints < cost then (.insufficientPoints, dbPoints)
  else if ptype = "generateImages" || ptype = "generateContent" then
    match provider with
    | .ok => (.success (dbPoints - cost), dbPoints - cost)
    | _ => (.genError, dbPoints)
  else (.genError, dbPoints)

/-- The shape of the `result` value a successful part_002 generate response
carries: a data URL, base64 audio, `{ text: response.text }` (whose text is
absent when the provider produced none), or `undefined` (no branch assigned
`result`). -/
inductive GenValue where
  | dataUrl
  | base64Audio
  | textVal (present : Bool)
  | undef

/-- A row of part_002's `operations` table as inserted by the generate
handler: `(user_id, type, cost)`. -/
structure OpRecord where
  user_id : Nat
  opType : String
  cost : Int
deriving DecidableEq

/-- A row of part_002's `users` table, restricted to the fields its
middleware and generate handler read. -/
structure User2 where
  id : Nat
  points : Int
  is_admin : Bool
  status : String
  auth_token : Option String

/-- HTTP-level outcome of part_002's `POST /api/ai/generate`. -/
inductive Response2 where
  | insufficientPoints
  | success (result : GenValue) (userPoints : Int)
  | genError

/-- part_002's `POST /api/ai/generate` (lines 555-661): resolve the cost from
`currentSettings`, reject with 402 only when `cost > 0 && user.points <
cost`, then in one transaction debit the points, insert an `operations` row,
and run the provider branch for the payload type; any thrown error rolls the
whole transaction back.  The `generateImages` branch dereferences
`generatedImages[0].image.imageBytes` and the image/tts `generateContent`
branches dereference `parts.find(...).inlineData`, so a blocked or empty
resolved response throws there; the `rewrite`/`generate-tweets` branches only
read `response.text`, so they commit even when that text is absent; a
`generateContent` model matching neither sub-branch ignores the response; an
unrecognized type runs no provider call and commits with `result`
undefined.  Returns the response, the committed points, the committed
operations log, and whether the provider was invoked. -/
def generate2 (u : User2) (c : Costs2) (removeWatermark : Bool) (p : Payload)
    (provider : ProviderOutcome) (ops : List OpRecord) :
    Response2 × Int × List OpRecord × Bool :=
  let cost := resolveCost2 c removeWatermark p
  if cost > 0 && u.points < cost then (.insufficientPoints, u.points, ops, false)
  else
    let newPoints := u.points - cost
    let newOps := ops ++ [⟨u.id, p.type, cost⟩]
    if p.type = "generateImages" then
      match provider with
      | .ok => (.success .dataUrl newPoints, newPoints, newOps, true)
      | _ => (.genError, u.points, ops, true)
    else if p.type = "generateContent" then
      match provider with
      | .transportError => (.genError, u.points, ops, true)
      | .ok =>
        if p.model = "gemini-2.5-flash-image" then
          (.success .dataUrl newPoints, newPoints, newOps, true)
        else if p.model = "gemini-2.5-flash-preview-tts" then
          (.success .base64Audio newPoints, newPoints, newOps, true)
        else (.success .undef newPoints, newPoints, newOps, true)
      | .blocked | .noOutput =>
        if p.model = "gemini-2.5-flash-image" || p.model = "gemini-2.5-flash-preview-tts" then
          (.genError, u.points, ops, true)
        else (.success .undef newPoints, newPoints, newOps, true)
    else if p.type = "rewrite" || p.type = "generate-tweets" then
      match provider with
      | .ok => (.success (.textVal true) newPoints, newPoints, newOps, true)
      | .transportError => (.genError, u.points, ops, true)
      | .blocked | .noOutput => (.success (.textVal false) newPoints, newPoints, newOps, true)
    else (.success .undef newPoints, newPoints, newOps, false)


/-- A row of part_001's `users` table, restricted to the fields read by its
login route, auth middleware and maintenance middleware.  `token_valid`
stands for `token_expires_at > NOW()` at the time of the request. -/
structure User1 where
  id : Nat
  username : String
  email : String
  password : String
  status : String
  is_admin : Bool
  points : Int
  session_token : Option String
  token_valid : Bool

/-- Outcome of part_001's `authenticateToken` middleware (lines 386-414). -/
inductive AuthResult1 where
  | noToken
  | invalidToken
  | authed (u : User1)

/-- part_001's `authenticateToken` middleware (lines 386-414): 401 without a
bearer token, otherwise select the user whose `session_token` matches and
whose `token_expires_at > NOW()`; 403 when no row matches.  No field other
than the token and its expiry is consulted — in particular not `status`. -/
def authenticateToken1 (users : List User1) (token : Option String) : AuthResult1 :=
  match token with
  | none => .noToken
  | some t =>
    match users.find? (fun u => u.session_token = some t && u.token_valid) with
    | some u => .authed u
    | none => .invalidToken

/-- Outcome of part_001's `POST /api/login` (lines 503-535). -/
inductive LoginResult1 where
  | notFound
  | wrongPassword
  | bannedRejected
  | loggedIn (u : User1)

/-- part_001's `POST /api/login`: select by lower-cased email or username,
404 when absent, 401 on a password mismatch, 403 when `status === 'banned'`
(lines 517-519), otherwise issue a fresh session token. -/
def login1 (users : List User1) (identifier password : String) : LoginResult1 :=
  match users.find? (fun u =>
      u.email.toLower = identifier.toLower || u.username.toLower = identifier.toLower) with
  | none => .notFound
  | some u =>
    if u.password ≠ password then .wrongPassword
    else if u.status = "banned" then .bannedRejected
    else .loggedIn u

/-- The maintenance slice of the settings document read by part_001's
maintenance middleware. -/
structure Maintenance1 where
  enabled : Bool
  message_en : String
  message_ar : String

/-- The settings document as consulted by part_001's maintenance middleware:
only `maintenance` is inspected, but the whole document is echoed back on the
`/api/settings` path. -/
structure SettingsDoc1 where
  maintenance : Maintenance1

/-- Result of part_001's maintenance middleware on one request. -/
inductive GateResult1 where
  | pass
  | blockedWithSettings (s : SettingsDoc1)
  | blockedWithMessages (en ar : String)

/-- The admin-bypass lookup of part_001's maintenance middleware: a presented
token maps to an administrator with an unexpired session. -/
def isAdminSession (users : List User1) (token : Option String) : Bool :=
  match token with
  | none => false
  | some t =>
    match users.find? (fun u => u.session_token = some t && u.token_valid) with
    | some u => u.is_admin
    | none => false

/-- part_001's `maintenanceMiddleware` (lines 252-301), applied to every
request via `app.use`: pass everything when maintenance is off; pass
administrators unconditionally; pass `/api/config` and `/api/login` for
anyone; answer `/api/settings` with a 503 carrying the whole settings
document;block every other path with a 503 carrying the two maintenance
messages.  (The `!pool` early `next()` is outside this model: the database is
available.) -/
def maintenanceMiddleware1 (s : SettingsDoc1) (users : List User1)
    (token : Option String) (path : String) : GateResult1 :=
  if s.maintenance.enabled = false then .pass
  else if isAdminSession users token then .pass
  else if path = "/api/config" || path = "/api/login" then .pass
  else if path = "/api/settings" then .blockedWithSettings s
  else .blockedWithMessages s.maintenance.message_en s.maintenance.message_ar

/-- Result of part_002's `maintenanceCheck` middleware on one request. -/
inductive Gate2 where
  | pass
  | blocked503

/-- part_002's `maintenanceCheck` middleware (lines 290-327): when
`currentSettings.maintenance.enabled` is set, only a presented token that
resolves to an administrator passes; every other caller — including one with
no token at all — receives a 503 maintenance response. -/
def maintenanceCheck2 (maintEnabled : Bool) (users : List User2)
    (token : Option String) : Gate2 :=
  if maintEnabled then
    match token with
    | some t =>
      match users.find? (fun u => u.auth_token = some t) with
      | some u => if u.is_admin then .pass else .blocked503
      | none => .blocked503
    | none => .blocked503
  else .pass

/-- part_002 line 433: `app.post('/api/login', maintenanceCheck, ...)` — the
login route only runs after `maintenanceCheck` passes. -/
def loginReachable2 (maintEnabled : Bool) (users : List User2)
    (token : Option String) : Bool :=
  match maintenanceCheck2 maintEnabled users token with
  | .pass => true
  | .blocked503 => false

/-- `fetchSettingsFromDB` of server.js lines 442-456: with a persisted row,
return `{ ...defaultSettings, ...dbSettings }` (shallow spread); with none,
insert and return the defaults.  `row` is the persisted `settings_json`. -/
def fetchSettingsFromDBSrv (row : Option Json) : Json :=
  match row with
  | some dbSettings => spreadMerge serverDefaultSettings dbSettings
  | none => serverDefaultSettings

/-- `fetchSettingsFromDB` of part_002 lines 238-257: with a persisted row,
return `deepMerge(defaultSettings, dbSettings)`; with none, insert and return
the defaults. -/
def fetchSettingsFromDBP2 (row : Option Json) : Json :=
  match row with
  | some dbSettings => deepMerge p2DefaultSettings dbSettings
  | none => p2DefaultSettings

/-- part_001's settings state: the persisted `settings.config` row and the
module-level `settingsCache`. -/
structure Store1 where
  db : Json
  cache : Option Json

/-- part_001's `PUT /api/admin/settings` (lines 685-695): persist the body
verbatim and call `invalidateSettingsCache()` (`settingsCache = null`). -/
def put1 (_st : Store1) (newSettings : Json) : Store1 :=
  { db := newSettings, cache := none }

/-- part_001's `getSettings` (lines 233-248): serve the cache when warm;
otherwise read `settings.config` verbatim from the database — no merge with
the compiled-in defaults — and cache it. -/
def getSettings1 (st : Store1) : Json × Store1 :=
  match st.cache with
  | some s => (s, st)
  | none => (st.db, { st with cache := some st.db })

/-- part_002's settings state: the persisted `settings_json` row and the
module-level `currentSettings`. -/
structure Store2 where
  db : Json
  current : Option Json

/-- part_002's `PUT /api/admin/settings` (lines 792-801): persist the body
verbatim and assign `currentSettings = newSettings` — the merged view is not
recomputed. -/
def put2 (_st : Store2) (newSettings : Json) : Store2 :=
  { db := newSettings, current := some newSettings }

/-- part_002's `GET /api/settings` (lines 338-343): serve `currentSettings`
when loaded. -/
def get2 (st : Store2) : Option Json :=
  st.current

/-- part_002's startup (line 878): `currentSettings = await
fetchSettingsFromDB()` — the only place where the deep merge with the defaults is
computed. -/
def startup2 (st : Store2) : Store2 :=
  { st with current := some (fetchSettingsFromDBP2 (some st.db)) }

/-- The progress of one part_001 generate request in the interleaving model:
not yet authenticated; holding the balance snapshot read by the auth
middleware; rejected 402 against that snapshot; or committed after the
unconditional `UPDATE ... points - cost`. -/
inductive Phase where
  | start
  | snapped (s : Int)
  | rejected
  | succeeded (cost : Int)

/-- Shared database state of two concurrent part_001 generate requests for
the same user. -/
structure RaceState where
  balance : Int
  r1 : Phase
  r2 : Phase

/-- One atomic step of a part_001 request: the auth middleware's `SELECT`
reads the current balance into the request's snapshot; then the 402 check
runs against the snapshot and, when it passes, the debit `UPDATE ... SET
points = points - $1` commits against the current row value. -/
def stepReq (cost balance : Int) : Phase → Phase × Int
  | .start => (.snapped balance, balance)
  | .snapped s => if s < cost then (.rejected, balance) else (.succeeded cost, balance - cost)
  | ph => (ph, balance)

/-- Run one step of the interleaved pair; `true` steps the first request. -/
def raceStep (c1 c2 : Int) (st : RaceState) (pick : Bool) : RaceState :=
  if pick then
    let r := stepReq c1 st.balance st.r1
    { balance := r.2, r1 := r.1, r2 := st.r2 }
  else
    let r := stepReq c2 st.balance st.r2
    { balance := r.2, r1 := st.r1, r2 := r.1 }

/-- Execute a schedule of interleaved steps of two part_001 generate requests
with costs `c1`, `c2` from an initial balance. -/
def runRace (c1 c2 init : Int) (sched : List Bool) : RaceState :=
  sched.foldl (raceStep c1 c2) { balance := init, r1 := .start, r2 := .start }

/-- One part_000 metered call: the settings in force, the watermark flag, the
payload and the provider's outcome. -/
structure Call0 where
  s : Settings0
  removeWatermark : Bool
  payload : Payload
  provider : ProviderOutcome

/-- Sequential execution of part_000 metered calls — the `FOR UPDATE` row
lock serializes all calls of one user, so each call runs `generate0` against
the committed balance left by the previous one.  Returns the final balance
together with the total amount the successful calls charged. -/
def runLocked0 : Int → List Call0 → Int × Int
  | pts, [] => (pts, 0)
  | pts, c :: rest =>
    let pts' := (generate0 pts c.s c.removeWatermark c.payload c.provider).2.1
    let r := runLocked0 pts' rest
    (r.1, (pts - pts') + r.2)


/-- The `costs` section of `p2DefaultSettings`, spelled out for path
computations. -/
def p2DefaultCosts : Json :=
  Json.obj [
    ("imageEdit", Json.num 2),
    ("imageCreate", Json.num 5),
    ("textToSpeech", Json.num 1),
    ("dailyRewardPoints", Json.num 10),
    ("referralBonus", Json.num 50),
    ("imageEdit_noWatermark", Json.num 8),
    ("imageCreate_noWatermark", Json.num 15),
    ("contentRewrite", Json.num 1),
    ("tweetGenerator", Json.num 1)]

/-- A persisted settings document missing the nested `costs.textToSpeech`
key: `{ costs: { imageCreate: 10 } }`. -/
def c5PersistedDoc : Json :=
  Json.obj [("costs", Json.obj [("imageCreate", Json.num 10)])]

/-- A small defaults document for exercising the backfill theorem. -/
def c5SmallDefaults : Json :=
  Json.obj [("costs", Json.obj [("imageCreate", Json.num 5), ("textToSpeech", Json.num 1)])]

/-- A small persisted document overriding one nested key of
`c5SmallDefaults`. -/
def c5SmallPersisted : Json :=
  Json.obj [("costs", Json.obj [("imageCreate", Json.num 10)])]

/-- The inner `costs` object of the admin write `c6NewDoc`. -/
def c6NewCosts : Json := Json.obj [("imageCreate", Json.num 99)]

/-- An admin settings write carrying only `costs.imageCreate`. -/
def c6NewDoc : Json := Json.obj [("costs", c6NewCosts)]

/-- A part_002 settings state as left by startup: some cached view is
loaded. -/
def c6Store : Store2 := { db := Json.null, current := some p2DefaultSettings }

/-- A part_000 costs section with the compiled-in default prices. -/
def sampleCosts0 : Costs0 :=
  { imageEdit := 2, imageCreate := 5, textToSpeech := 1,
    imageEdit_noWatermark := 8, imageCreate_noWatermark := 15,
    contentRewrite := some 1, tweetGenerator := some 1 }

/-- A part_000 settings document holding `sampleCosts0`. -/
def sampleSettings0 : Settings0 := { costs := sampleCosts0 }

/-- A part_002 costs section with every pricing key present at the
compiled-in default value. -/
def sampleCosts2 : Costs2 :=
  { imageCreate := some 5, imageCreate_noWatermark := some 15,
    imageEdit := some 2, imageEdit_noWatermark := some 8,
    textToSpeech := some 1, contentRewrite := some 1, tweetGenerator := some 1 }

/-- A part_002 costs section with unit TTS price 1, for the ceiling-rule
examples. -/
def ttsUnitCosts : Costs2 :=
  { imageCreate := some 5, imageCreate_noWatermark := some 15,
    imageEdit := some 2, imageEdit_noWatermark := some 8,
    textToSpeech := some 1, contentRewrite := some 1, tweetGenerator := some 1 }

/-- An image-generation payload. -/
def imgPayload : Payload :=
  { type := "generateImages", model := "imagen-4.0-generate-001", text := "", modalities := [] }

/-- An image-edit payload (`generateContent` with the image model). -/
def editPayload : Payload :=
  { type := "generateContent", model := "gemini-2.5-flash-image", text := "",
    modalities := ["IMAGE"] }

/-- A text-rewrite payload. -/
def rwPayload : Payload :=
  { type := "rewrite", model := "", text := "some text", modalities := [] }

/-- A tweet-generation payload. -/
def twPayload : Payload :=
  { type := "generate-tweets", model := "", text := "", modalities := [] }

/-- A text-to-speech payload whose input text has `n` characters. -/
def ttsPayload (n : Nat) : Payload :=
  { type := "generateContent", model := "gemini-2.5-flash-preview-tts",
    text := String.mk (List.replicate n 'a'), modalities := ["AUDIO"] }

/-- A payload whose type matches no recognized operation kind. -/
def unknownPayload : Payload :=
  { type := "weird-op", model := "", text := "", modalities := [] }

/-- A part_002 user holding 10 points. -/
def richUser2 : User2 :=
  { id := 7, points := 10, is_admin := false, status := "active", auth_token := some "tok" }

/-- A part_002 user holding 3 points. -/
def poorUser2 : User2 :=
  { id := 8, points := 3, is_admin := false, status := "active", auth_token := some "tok2" }

/-- A settings document with maintenance enabled. -/
def maintDoc : SettingsDoc1 :=
  { maintenance :=
      { enabled := true
        message_en := "Down for maintenance"
        message_ar := "الموقع تحت الصيانة" } }

/-- A banned part_001 account still holding a valid, unexpired session
token. -/
def bannedUser1 : User1 :=
  { id := 3, username := "mallory", email := "m@example.com", password := "pw",
    status := "banned", is_admin := false, points := 10,
    session_token := some "tok9", token_valid := true }

/-- A successful image-create call at the default prices. -/
def sampleCall0 : Call0 :=
  { s := sampleSettings0, removeWatermark := false, payload := imgPayload, provider := .ok }

theorem lookupKey_append (l1 l2 : List (String × Json)) (k : String) :
    lookupKey (l1 ++ l2) k =
      match lookupKey l1 k with
      | some v => some v
      | none => lookupKey l2 k := by
  induction l1 with
  | nil => simp [lookupKey]
  | cons e rest ih =>
    by_cases h : e.1 = k <;> simp [lookupKey, h, ih]

theorem lookupKey_mergeEntries (ds os : List (String × Json)) (k : String) :
    lookupKey (mergeEntries ds os) k
      = (lookupKey ds k).map (fun dv => mergeVal dv (lookupKey os k)) := by
  induction ds with
  | nil => simp [mergeEntries, lookupKey]
  | cons e rest ih =>
    obtain ⟨k', dv⟩ := e
    by_cases h : k' = k
    · subst h
      cases hl : lookupKey os k' <;>
        simp [mergeEntries, lookupKey, mergeVal, hl]
    · simp [mergeEntries, lookupKey, h, ih]

theorem lookupKey_filter_notin (ds os : List (String × Json)) (k : String)
    (h : lookupKey ds k = none) :
    lookupKey (os.filter (fun e => (lookupKey ds e.1).isNone)) k = lookupKey os k := by
  induction os with
  | nil => simp
  | cons e rest ih =>
    by_cases hk : e.1 = k
    · have hsome : (lookupKey ds e.1).isNone = true := by rw [hk, h]; rfl
      simp [List.filter, hsome, lookupKey, hk, ih, h]
    · by_cases hf : (lookupKey ds e.1).isNone = true <;>
        simp [List.filter, hf, lookupKey, hk, ih]

theorem get?_deepMerge (ds os : List (String × Json)) (k : String) :
    (deepMerge (.obj ds) (.obj os)).get? k =
      match lookupKey ds k with
      | some dv => some (mergeVal dv (lookupKey os k))
      | none => lookupKey os k := by
  have h1 : deepMerge (.obj ds) (.obj os)
      = .obj (mergeEntries ds os ++ os.filter (fun e => (lookupKey ds e.1).isNone)) := by
    simp [deepMerge]
  rw [h1]
  show lookupKey (mergeEntries ds os ++ _) k = _
  rw [lookupKey_append, lookupKey_mergeEntries]
  cases h : lookupKey ds k with
  | some dv => simp
  | none => simp [lookupKey_filter_notin _ _ _ h]

theorem compat_obj_right (dv ov : Json) (hobj : dv.isObj = true) (hc : compat dv ov = true) :
    ov.isObj = true := by
  cases dv <;> simp [Json.isObj] at hobj ⊢
  cases ov <;> simp [compat, Json.isObj] at hc ⊢

theorem compatEntries_lookup (ds os : List (String × Json)) (k : String) (dv ov : Json)
    (hc : compatEntries ds os = true) (hd : lookupKey ds k = some dv)
    (ho : lookupKey os k = some ov) (hobj : dv.isObj = true) :
    compat dv ov = true := by
  induction os with
  | nil => simp [lookupKey] at ho
  | cons e rest ih =>
    obtain ⟨k', v'⟩ := e
    have hc' : (match lookupKey ds k' with
        | none => true
        | some dv => !dv.isObj || compat dv v') = true
        ∧ compatEntries ds rest = true := by
      have := hc
      simp [compatEntries] at this
      exact this
    by_cases hk : k' = k
    · subst hk
      have hov : v' = ov := by simpa [lookupKey] using ho
      subst hov
      have := hc'.1
      rw [hd] at this
      simpa [hobj] using this
    · have ho' : lookupKey rest k = some ov := by simpa [lookupKey, hk] using ho
      exact ih hc'.2 ho'

theorem deepMerge_of_nonobj_right (d o : Json) (h : o.isObj = false) :
    deepMerge d o = o := by
  cases d <;> cases o <;> simp [Json.isObj] at h ⊢ <;> simp [deepMerge]

theorem deepMerge_of_nonobj_left (d o : Json) (h : d.isObj = false) :
    deepMerge d o = o := by
  cases d <;> simp [Json.isObj] at h ⊢ <;> simp [deepMerge]

theorem deepMerge_path_backfill :
    ∀ (p : List String) (d o : Json), compat d o = true →
      (getPath d p).isSome = true → (getPath (deepMerge d o) p).isSome = true := by
  intro p
  induction p with
  | nil => intro d o _ _; simp [getPath]
  | cons k rest ih =>
    intro d o hc hp
    cases d with
    | obj ds =>
      cases o with
      | obj os =>
        have hce : compatEntries ds os = true := by simpa [compat] using hc
        simp only [getPath, Json.get?] at hp
        cases hdk : lookupKey ds k with
        | none => rw [hdk] at hp; simp at hp
        | some dv =>
          rw [hdk] at hp
          simp only at hp
          simp only [getPath, get?_deepMerge, hdk]
          cases hok : lookupKey os k with
          | none => simpa [mergeVal] using hp
          | some ov =>
            simp only [mergeVal]
            cases rest with
            | nil => simp [getPath]
            | cons r rs =>
              have hdvobj : dv.isObj = true := by
                cases dv <;> simp [Json.isObj] <;>
                  simp [getPath, Json.get?] at hp
              have hcv : compat dv ov = true :=
                compatEntries_lookup ds os k dv ov hce hdk hok hdvobj
              have hovobj : ov.isObj = true := compat_obj_right dv ov hdvobj hcv
              rw [hdvobj, hovobj]
              simp only [Bool.and_self, if_true]
              exact ih dv ov hcv hp
      | null => simp [compat] at hc
      | bool b => simp [compat] at hc
      | num n => simp [compat] at hc
      | str s => simp [compat] at hc
      | arr a => simp [compat] at hc
    | null => simp [getPath, Json.get?] at hp
    | bool b => simp [getPath, Json.get?] at hp
    | num n => simp [getPath, Json.get?] at hp
    | str s => simp [getPath, Json.get?] at hp
    | arr a => simp [getPath, Json.get?] at hp

theorem deepMerge_override_leaf :
    ∀ (p : List String) (o d v : Json), getPath o p = some v → v.isObj = false →
      getPath (deepMerge d o) p = some v := by
  intro p
  induction p with
  | nil =>
    intro o d v ho hv
    simp [getPath] at ho
    subst ho
    simpa [getPath] using deepMerge_of_nonobj_right d o hv
  | cons k rest ih =>
    intro o d v ho hv
    cases o with
    | obj os =>
      simp only [getPath, Json.get?] at ho
      cases hok : lookupKey os k with
      | none => rw [hok] at ho; simp at ho
      | some ov =>
        rw [hok] at ho
        simp only at ho
        cases d with
        | obj ds =>
          simp only [getPath, get?_deepMerge]
          cases hdk : lookupKey ds k with
          | none => simp only [hok]; exact ho
          | some dv =>
            simp only [mergeVal, hok]
            by_cases hb : (dv.isObj && ov.isObj) = true
            · rw [hb]; simp only [if_true]; exact ih ov dv v ho hv
            · rw [Bool.not_eq_true] at hb
              rw [hb]; simp only [Bool.false_eq_true, if_false]; exact ho
        | null => rw [deepMerge_of_nonobj_left _ _ (by rfl)]; simp only [getPath, Json.get?, hok]; exact ho
        | bool b => rw [deepMerge_of_nonobj_left _ _ (by rfl)]; simp only [getPath, Json.get?, hok]; exact ho
        | num n => rw [deepMerge_of_nonobj_left _ _ (by rfl)]; simp only [getPath, Json.get?, hok]; exact ho
        | str s => rw [deepMerge_of_nonobj_left _ _ (by rfl)]; simp only [getPath, Json.get?, hok]; exact ho
        | arr a => rw [deepMerge_of_nonobj_left _ _ (by rfl)]; simp only [getPath, Json.get?, hok]; exact ho
    | null => simp [getPath, Json.get?] at ho
    | bool b => simp [getPath, Json.get?] at ho
    | num n => simp [getPath, Json.get?] at ho
    | str s => simp [getPath, Json.get?] at ho
    | arr a => simp [getPath, Json.get?] at ho


theorem getPath_cons_some (j v : Json) (k : String) (rest : List String)
    (h : j.get? k = some v) : getPath j (k :: rest) = getPath v rest := by
  rw [show getPath j (k :: rest) = (match j.get? k with
      | some v => getPath v rest
      | none => none) from rfl, h]

theorem get?_deepMerge_obj (D O : Json) (hD : D.isObj = true) (hO : O.isObj = true)
    (k : String) :
    (deepMerge D O).get? k =
      match D.get? k with
      | some dv => some (mergeVal dv (O.get? k))
      | none => O.get? k := by
  cases D with
  | obj ds =>
    cases O with
    | obj os => exact get?_deepMerge ds os k
    | null => simp [Json.isObj] at hO
    | bool b => simp [Json.isObj] at hO
    | num n => simp [Json.isObj] at hO
    | str s => simp [Json.isObj] at hO
    | arr a => simp [Json.isObj] at hO
  | null => simp [Json.isObj] at hD
  | bool b => simp [Json.isObj] at hD
  | num n => simp [Json.isObj] at hD
  | str s => simp [Json.isObj] at hD
  | arr a => simp [Json.isObj] at hD

/-- C5 (amended).  The claim as written fails on server.js (see the
counterexample): its `fetchSettingsFromDB` merges the persisted document over
the defaults with a top-level spread only.  Amended to what part_002's
deep-merging `fetchSettingsFromDB` guarantees: for a persisted document `d`
that is object-shaped wherever the defaults hold an object (`compat`), the
effective document contains every key path of the compiled-in default
document, and every non-object leaf value of `d` is served unchanged. -/
theorem c5_amended_deep_merge_backfills (d : Json) (hc : compat p2DefaultSettings d = true) :
    (∀ p : List String, (getPath p2DefaultSettings p).isSome = true →
      (getPath (fetchSettingsFromDBP2 (some d)) p).isSome = true) ∧
    (∀ (p : List String) (v : Json), getPath d p = some v → v.isObj = false →
      getPath (fetchSettingsFromDBP2 (some d)) p = some v) :=
  ⟨fun p hp => deepMerge_path_backfill p p2DefaultSettings d hc hp,
   fun p v hv hno => deepMerge_override_leaf p d p2DefaultSettings v hv hno⟩

/-- Witness for `c5_amended_deep_merge_backfills`: the persisted document
`{ costs: { imageCreate: 99 } }` is `compat` with the part_002 defaults, and
the effective document still contains `costs.textToSpeech`. -/
theorem c5_amended_witness :
    compat p2DefaultSettings c6NewDoc = true ∧
    (getPath (fetchSettingsFromDBP2 (some c6NewDoc)) ["costs", "textToSpeech"]).isSome = true := by
  have hc : compat p2DefaultSettings c6NewDoc = true := by
    simp [p2DefaultSettings, c6NewDoc, c6NewCosts, compat, compatEntries, lookupKey, Json.isObj]
  refine ⟨hc, (c5_amended_deep_merge_backfills c6NewDoc hc).1 ["costs", "textToSpeech"] (by rfl)⟩

/-- C5 counterexample.  server.js's `fetchSettingsFromDB` (lines 442-456)
returns `{ ...defaultSettings, ...dbSettings }`: with the persisted document
`{ costs: { imageCreate: 10 } }`, the served document has no
`costs.textToSpeech` even though the compiled-in default document defines it
— a caller observes a missing pricing key, refuting the claim as stated. -/
theorem c5_counterexample_shallow_merge_drops_nested_default :
    (getPath serverDefaultSettings ["costs", "textToSpeech"]).isSome = true ∧
    getPath (fetchSettingsFromDBSrv (some c5PersistedDoc)) ["costs", "textToSpeech"] = none ∧
    getPath (fetchSettingsFromDBSrv (some c5PersistedDoc)) ["costs", "imageCreate"]
      = some (Json.num 10) := by
  exact ⟨rfl, rfl, rfl⟩

/-- C6 (amended).  In both part_001 and part_002, an admin settings write
persists the request body verbatim and a get with no intervening write
serves that body itself: part_001's put clears the cache and the next
`getSettings` returns the persisted row with no defaults merge; part_002's
put assigns `currentSettings = newSettings` directly.  The deep merge with
the compiled-in defaults is not recomputed after a put (it only runs when
settings are fetched from the database, e.g. at startup). -/
theorem c6_amended_put_get_verbatim (st1 : Store1) (st2 : Store2) (newSettings : Json) :
    (getSettings1 (put1 st1 newSettings)).1 = newSettings ∧
    (put1 st1 newSettings).db = newSettings ∧
    get2 (put2 st2 newSettings) = some newSettings ∧
    (put2 st2 newSettings).db = newSettings :=
  ⟨rfl, rfl, rfl, rfl⟩

/-- C6 counterexample.  After `put({ costs: { imageCreate: 99 } })` on
part_002, the next get serves that document verbatim; the deep merge of the
compiled-in defaults with it would contain `costs.textToSpeech`, which the
served document lacks — so the served document is not the recomputed merge,
refuting the claim at this input. -/
theorem c6_counterexample_put_get_not_merged :
    get2 (put2 c6Store c6NewDoc) = some c6NewDoc ∧
    getPath c6NewDoc ["costs", "textToSpeech"] = none ∧
    getPath (deepMerge p2DefaultSettings c6NewDoc) ["costs", "textToSpeech"]
      = some (Json.num 1) ∧
    get2 (put2 c6Store c6NewDoc) ≠ some (deepMerge p2DefaultSettings c6NewDoc) := by
  have e1 : (deepMerge p2DefaultSettings c6NewDoc).get? "costs"
      = some (mergeVal p2DefaultCosts (some c6NewCosts)) := by
    rw [get?_deepMerge_obj p2DefaultSettings c6NewDoc rfl rfl]
    rw [show p2DefaultSettings.get? "costs" = some p2DefaultCosts from rfl]
    rw [show c6NewDoc.get? "costs" = some c6NewCosts from rfl]
  have e2 : mergeVal p2DefaultCosts (some c6NewCosts) = deepMerge p2DefaultCosts c6NewCosts := rfl
  have e3 : (deepMerge p2DefaultCosts c6NewCosts).get? "textToSpeech" = some (Json.num 1) := by
    rw [get?_deepMerge_obj p2DefaultCosts c6NewCosts rfl rfl]
    rw [show p2DefaultCosts.get? "textToSpeech" = some (Json.num 1) from rfl]
    rw [show c6NewCosts.get? "textToSpeech" = (none : Option Json) from rfl]
    rfl
  have h1 : getPath (deepMerge p2DefaultSettings c6NewDoc) ["costs", "textToSpeech"]
      = some (Json.num 1) := by
    rw [getPath_cons_some _ _ _ _ (e1.trans (congrArg some e2))]
    rw [getPath_cons_some _ _ _ _ e3]
    rfl
  refine ⟨rfl, rfl, h1, ?_⟩
  intro h
  have h' : c6NewDoc = deepMerge p2DefaultSettings c6NewDoc :=
    Option.some.inj (by simpa [get2, put2] using h)
  have h2 := congrArg (fun j => getPath j ["costs", "textToSpeech"]) h'
  simp only at h2
  rw [h1, show getPath c6NewDoc ["costs", "textToSpeech"] = none from rfl] at h2
  exact Option.noConfusion h2


/-- C2: a metered call whose resolved price exceeds the user's current
balance is rejected with the insufficient-points 402, no balance or
operations-log mutation occurs, and the provider is never invoked.  part_000
checks `user.points < cost` under its `FOR UPDATE` lock and rolls back;
part_002 checks `cost > 0 && user.points < cost` before opening the
transaction (for a non-negative balance, price > balance forces price > 0);
part_001 checks the client-sent cost against the auth snapshot before
connecting. -/
theorem c2_insufficient_balance_rejected
    (s : Settings0) (c : Costs2) (removeWatermark : Bool) (p : Payload)
    (provider : ProviderOutcome) (u : User2) (ops : List OpRecord)
    (points dbPoints cost1 : Int)
    (h0 : points < resolveCost0 s removeWatermark p)
    (hu : 0 ≤ u.points) (h2 : u.points < resolveCost2 c removeWatermark p)
    (h1 : points < cost1) :
    generate0 points s removeWatermark p provider = (.insufficientPoints, points, false) ∧
    generate2 u c removeWatermark p provider ops = (.insufficientPoints, u.points, ops, false) ∧
    generate1 points dbPoints cost1 p.type provider = (.insufficientPoints, dbPoints) := by
  have hpos : resolveCost2 c removeWatermark p > 0 := lt_of_le_of_lt hu h2
  refine ⟨?_, ?_, ?_⟩
  · simp [generate0, h0]
  · simp [generate2, hpos, h2]
  · simp [generate1, h1]

/-- Witness for `c2_insufficient_balance_rejected`: balance 3, image-create
price 5. -/
theorem c2_witness :
    generate0 3 sampleSettings0 false imgPayload .ok = (.insufficientPoints, 3, false) ∧
    generate2 poorUser2 sampleCosts2 false imgPayload .ok [] = (.insufficientPoints, 3, [], false) ∧
    generate1 3 3 5 imgPayload.type .ok = (.insufficientPoints, 3) :=
  c2_insufficient_balance_rejected sampleSettings0 sampleCosts2 false imgPayload .ok
    poorUser2 [] 3 3 5 (by decide) (by decide) (by decide) (by decide)

/-- C3: for a text-to-speech request with an `n`-character input and unit
cost `u`, both cost resolvers price the call at `ceil(n / 100) * u`, where
`ceil(n / 100)` is `(n + 99) / 100` in natural division — characterized below
as the least `m` with `n ≤ 100 * m` — and at `u = 1` the concrete inputs of
the claim price to 0, 1, 1 and 2 points. -/
theorem c3_tts_ceiling_price (s : Settings0) (c : Costs2) (removeWatermark : Bool)
    (p : Payload) (u2 : Int)
    (ht : p.type = "generateContent") (hm : p.model = "gemini-2.5-flash-preview-tts")
    (hc2 : c.textToSpeech = some u2) :
    resolveCost0 s removeWatermark p
      = (((p.text.length + 99) / 100 : Nat) : Int) * s.costs.textToSpeech ∧
    resolveCost2 c removeWatermark p = (((p.text.length + 99) / 100 : Nat) : Int) * u2 ∧
    (p.text.length ≤ 100 * ((p.text.length + 99) / 100) ∧
      ∀ m : Nat, p.text.length ≤ 100 * m → (p.text.length + 99) / 100 ≤ m) ∧
    resolveCost2 ttsUnitCosts false (ttsPayload 0) = 0 ∧
    resolveCost2 ttsUnitCosts false (ttsPayload 1) = 1 ∧
    resolveCost2 ttsUnitCosts false (ttsPayload 100) = 1 ∧
    resolveCost2 ttsUnitCosts false (ttsPayload 101) = 2 := by
  refine ⟨?_, ?_, ⟨by omega, fun m hm => by omega⟩, by decide, by decide, by decide, by decide⟩
  · simp [resolveCost0, ht, hm]
  · simp [resolveCost2, ht, hm, hc2]

/-- Witness for `c3_tts_ceiling_price`: a 101-character input at the default
unit cost 1 prices to 2 points in both resolvers. -/
theorem c3_witness :
    resolveCost0 sampleSettings0 false (ttsPayload 101) = 2 ∧
    resolveCost2 sampleCosts2 false (ttsPayload 101) = 2 := by
  have h := c3_tts_ceiling_price sampleSettings0 sampleCosts2 false (ttsPayload 101) 1
    rfl rfl rfl
  exact ⟨h.1.trans (by decide), h.2.1.trans (by decide)⟩


/-- C4 (amended).  In the handlers that resolve prices server-side (part_000
and part_002), every fixed-price kind is charged exactly the flat integer
stored under its key in the configuration's `costs` section, with the
remove-watermark flag selecting the `_noWatermark` key for the two image
kinds; the claim's further assertion that the charged amount is always
determined by the request kind and the configuration fails on part_001,
which charges the client-supplied `req.body.cost` (see the
counterexample). -/
theorem c4_amended_fixed_price_lookup (s : Settings0) (c : Costs2)
    (a b d e r t r0 t0 : Int) (removeWatermark : Bool) (pImg pEdit pRw pTw : Payload)
    (h1 : c.imageCreate = some a) (h2 : c.imageCreate_noWatermark = some b)
    (h3 : c.imageEdit = some d) (h4 : c.imageEdit_noWatermark = some e)
    (h5 : c.contentRewrite = some r) (h6 : c.tweetGenerator = some t)
    (h7 : s.costs.contentRewrite = some r0) (h8 : s.costs.tweetGenerator = some t0)
    (hImg : pImg.type = "generateImages")
    (hEt : pEdit.type = "generateContent") (hEm : pEdit.model = "gemini-2.5-flash-image")
    (hRw : pRw.type = "rewrite") (hTw : pTw.type = "generate-tweets") :
    resolveCost0 s removeWatermark pImg
      = (if removeWatermark then s.costs.imageCreate_noWatermark else s.costs.imageCreate) ∧
    resolveCost2 c removeWatermark pImg = (if removeWatermark then b else a) ∧
    resolveCost0 s removeWatermark pEdit
      = (if removeWatermark then s.costs.imageEdit_noWatermark else s.costs.imageEdit) ∧
    resolveCost2 c removeWatermark pEdit = (if removeWatermark then e else d) ∧
    resolveCost0 s removeWatermark pRw = r0 ∧
    resolveCost2 c removeWatermark pRw = r ∧
    resolveCost0 s removeWatermark pTw = t0 ∧
    resolveCost2 c removeWatermark pTw = t := by
  refine ⟨?_, ?_, ?_, ?_, ?_, ?_, ?_, ?_⟩ <;>
    simp [resolveCost0, resolveCost2, hImg, hEt, hEm, hRw, hTw,
      h1, h2, h3, h4, h5, h6, h7, h8]

/-- Witness for `c4_amended_fixed_price_lookup` at the compiled-in default
prices, with the remove-watermark modifier set. -/
theorem c4_amended_witness :
    resolveCost2 sampleCosts2 true imgPayload = 15 ∧
    resolveCost2 sampleCosts2 true editPayload = 8 ∧
    resolveCost2 sampleCosts2 true rwPayload = 1 ∧
    resolveCost0 sampleSettings0 true twPayload = 1 :=
  have h := c4_amended_fixed_price_lookup sampleSettings0 sampleCosts2 5 15 2 8 1 1 1 1 true
    imgPayload editPayload rwPayload twPayload rfl rfl rfl rfl rfl rfl rfl rfl rfl rfl rfl rfl rfl
  ⟨h.2.1, h.2.2.2.1, h.2.2.2.2.2.1, h.2.2.2.2.2.2.1⟩

/-- C4 counterexample.  part_001's generate handler (lines 567-575) takes the
charge from `req.body`: with the image-create price configured as 5, a
request claiming cost 1 is debited exactly 1 point — the charged amount is
not determined by the request's kind/modifier and the configuration
document, refuting the claim as stated. -/
theorem c4_counterexample_client_supplied_cost :
    sampleSettings0.costs.imageCreate = 5 ∧
    sampleCosts2.imageCreate = some 5 ∧
    generate1 10 10 1 "generateImages" .ok = (.success 9, 9) ∧
    (10 : Int) - 9 ≠ 5 :=
  ⟨rfl, rfl, rfl, by decide⟩

/-- C1 (amended).  A provider failure that the handler detects always rolls
the debit back and leaves the balance and the operations log unchanged: in
part_002 this covers every thrown transport/provider error on the four
recognized kinds (given the 402 check passed) and, for the image/audio
branches, blocked or empty resolved responses (whose field dereferences
throw); in part_001 every non-`ok` outcome is detected and rolled back.  The
claim's full statement fails on part_002's text branches, where a blocked or
empty resolved response is not detected and the charge is committed (see the
counterexample). -/
theorem c1_amended_rollback_on_provider_throw
    (u : User2) (c : Costs2) (removeWatermark : Bool) (p : Payload)
    (provider : ProviderOutcome) (ops : List OpRecord)
    (snapshotPoints dbPoints cost1 : Int) (ptype1 : String)
    (haff : ¬(resolveCost2 c removeWatermark p > 0 ∧
      u.points < resolveCost2 c removeWatermark p)) :
    (provider = .transportError →
      (p.type = "generateImages" ∨ p.type = "generateContent" ∨
        p.type = "rewrite" ∨ p.type = "generate-tweets") →
      generate2 u c removeWatermark p provider ops = (.genError, u.points, ops, true)) ∧
    ((provider = .blocked ∨ provider = .noOutput) →
      (p.type = "generateImages" ∨
        (p.type = "generateContent" ∧
          (p.model = "gemini-2.5-flash-image" ∨ p.model = "gemini-2.5-flash-preview-tts"))) →
      generate2 u c removeWatermark p provider ops = (.genError, u.points, ops, true)) ∧
    (provider ≠ .ok →
      (generate1 snapshotPoints dbPoints cost1 ptype1 provider).2 = dbPoints) := by
  refine ⟨?_, ?_, ?_⟩
  · rintro rfl (ht | ht | ht | ht) <;>
      simp [generate2, ht, haff]
  · rintro hp hty
    rcases hty with ht | ⟨ht, hm⟩
    · rcases hp with rfl | rfl <;> simp [generate2, ht, haff]
    · rcases hp with rfl | rfl <;> rcases hm with hm | hm <;> simp [generate2, ht, hm, haff]
  · intro hne
    unfold generate1
    split
    · rfl
    · split
      · cases provider with
        | ok => exact absurd rfl hne
        | blocked => rfl
        | noOutput => rfl
        | transportError => rfl
      · rfl

/-- Witness for `c1_amended_rollback_on_provider_throw`: a thrown provider
error on a rewrite call leaves the 10-point balance and the empty operations
log committed unchanged, and a blocked part_001 call leaves the balance
unchanged. -/
theorem c1_amended_witness :
    generate2 richUser2 sampleCosts2 false rwPayload .transportError []
      = (.genError, 10, [], true) ∧
    (generate1 10 10 5 "generateImages" .blocked).2 = 10 :=
  have h := c1_amended_rollback_on_provider_throw richUser2 sampleCosts2 false rwPayload
    .transportError [] 10 10 5 "generateImages" (by decide)
  ⟨h.1 rfl (Or.inr (Or.inr (Or.inl rfl))), h.2.2 (by decide)⟩

/-- C1 counterexample.  In part_002 a safety-blocked `rewrite` call is not
detected: the handler only reads `response.text`, so the transaction commits
— the user is charged 1 point (balance 10 → 9) and an operations row is
written, while the response reports success with no text.  A blocked call
thus leaves a charge committed, refuting the claim as stated. -/
theorem c1_counterexample_blocked_rewrite_charges :
    richUser2.points = 10 ∧
    generate2 richUser2 sampleCosts2 false rwPayload .blocked []
      = (.success (.textVal false) 9, 9, [⟨7, "rewrite", 1⟩], true) ∧
    (9 : Int) ≠ 10 :=
  ⟨rfl, rfl, by decide⟩

/-- C7 (amended).  part_000's generate handler rejects a payload of
unrecognized kind with the 400 `Invalid AI operation type` response after
rolling back: the balance is unchanged and the provider is never invoked
(for a non-negative balance, whose unknown-kind cost 0 passes the
affordability check).  The claim's assertion that this holds for every
handler fails on part_002, which commits a zero-cost operations row and
returns success for an unknown kind (see the counterexample). -/
theorem c7_amended_unknown_kind (points : Int) (s : Settings0) (removeWatermark : Bool)
    (p : Payload) (provider : ProviderOutcome)
    (h1 : p.type ≠ "generateImages") (h2 : p.type ≠ "generateContent")
    (h3 : p.type ≠ "rewrite") (h4 : p.type ≠ "generate-tweets")
    (hp : 0 ≤ points) :
    generate0 points s removeWatermark p provider = (.invalidOperation, points, false) := by
  have hcost : resolveCost0 s removeWatermark p = 0 := by
    simp [resolveCost0, h1, h2, h3, h4]
  have hlt : ¬ points < resolveCost0 s removeWatermark p := by omega
  simp [generate0, hlt, h1, h2, h3, h4]

/-- Witness for `c7_amended_unknown_kind`: the kind `weird-op` is rejected
with 400 and an unchanged 10-point balance, with no provider call. -/
theorem c7_amended_witness :
    generate0 10 sampleSettings0 false unknownPayload .ok = (.invalidOperation, 10, false) :=
  c7_amended_unknown_kind 10 sampleSettings0 false unknownPayload .ok
    (by decide) (by decide) (by decide) (by decide) (by decide)

/-- C7 counterexample.  part_002's cost switch has no default and its
affordability check skips zero-cost calls, so a payload of unrecognized kind
`weird-op` is not rejected: the handler opens the transaction, debits 0,
inserts the operations row `(7, 'weird-op', 0)`, invokes no provider branch,
and commits a success response with `result` undefined — a ledger
(operations) mutation is committed and no InvalidOperation error is
returned, refuting the claim as stated. -/
theorem c7_counterexample_unknown_kind_commits_operation :
    generate2 richUser2 sampleCosts2 false unknownPayload .ok []
      = (.success .undef 10, 10, [⟨7, "weird-op", 0⟩], false) ∧
    ([⟨7, "weird-op", 0⟩] : List OpRecord) ≠ [] :=
  ⟨rfl, by decide⟩


/-- C8 (amended).  part_001's global maintenance middleware behaves as the
claim describes with two deviations, and part_002 deviates further (see the
counterexample).  For part_001 with maintenance enabled: an authenticated
administrator passes on every path; `/api/config` and `/api/login` pass for
any caller; `/api/settings` is answered with a 503 that carries the whole
settings document; and every other path — metered endpoints included — is
blocked with a 503 carrying the two maintenance messages.  The middleware
writes nothing, so the caller's balance is unchanged by construction. -/
theorem c8_amended_maintenance_gate (s : SettingsDoc1) (users : List User1)
    (token : Option String) (path : String)
    (hen : s.maintenance.enabled = true) :
    (isAdminSession users token = true →
      maintenanceMiddleware1 s users token path = .pass) ∧
    (isAdminSession users token = false →
      path = "/api/config" ∨ path = "/api/login" →
      maintenanceMiddleware1 s users token path = .pass) ∧
    (isAdminSession users token = false → path = "/api/settings" →
      maintenanceMiddleware1 s users token path = .blockedWithSettings s) ∧
    (isAdminSession users token = false →
      path ≠ "/api/config" → path ≠ "/api/login" → path ≠ "/api/settings" →
      maintenanceMiddleware1 s users token path
        = .blockedWithMessages s.maintenance.message_en s.maintenance.message_ar) := by
  refine ⟨?_, ?_, ?_, ?_⟩
  · intro ha; simp [maintenanceMiddleware1, hen, ha]
  · rintro ha (rfl | rfl) <;> simp [maintenanceMiddleware1, hen, ha]
  · rintro ha rfl; simp [maintenanceMiddleware1, hen, ha]
  · intro ha h1 h2 h3; simp [maintenanceMiddleware1, hen, ha, h1, h2, h3]

/-- Witness for `c8_amended_maintenance_gate`: with maintenance enabled, an
anonymous call to the metered `/api/ai/generate` endpoint is blocked with the
maintenance messages, while `/api/login` passes. -/
theorem c8_amended_witness :
    maintenanceMiddleware1 maintDoc [] none "/api/ai/generate"
      = .blockedWithMessages maintDoc.maintenance.message_en maintDoc.maintenance.message_ar ∧
    maintenanceMiddleware1 maintDoc [] none "/api/login" = .pass :=
  have h := c8_amended_maintenance_gate maintDoc [] none "/api/ai/generate" (by rfl)
  have h' := c8_amended_maintenance_gate maintDoc [] none "/api/login" (by rfl)
  ⟨h.2.2.2 rfl (by decide) (by decide) (by decide),
   h'.2.1 rfl (Or.inr rfl)⟩

/-- C8 counterexample.  In part_002 the maintenance gate is attached to the
login route itself (line 433), and it blocks every caller who does not
present an administrator token: with maintenance enabled, an anonymous
request to `/api/login` receives the 503 maintenance response — the login
endpoint is not reachable by any caller, refuting the claim as stated. -/
theorem c8_counterexample_login_blocked_in_maintenance :
    maintenanceCheck2 true [] none = .blocked503 ∧
    loginReachable2 true [] none = false ∧
    loginReachable2 false [] none = true :=
  ⟨rfl, rfl, rfl⟩

/-- C9 (amended).  A banned account is rejected at part_001's login with the
403 banned response, so it cannot obtain a fresh session token; but the
token middleware `authenticateToken` matches only the session token and its
expiry — account status is never consulted — so an account banned after
obtaining a still-valid token continues to authenticate (the counterexample
carries this through a successful metered call). -/
theorem c9_amended_banned_login_rejected (users : List User1)
    (identifier password : String) (u : User1) (t : String) (rest : List User1)
    (hfind : users.find? (fun u => u.email.toLower = identifier.toLower
        || u.username.toLower = identifier.toLower) = some u)
    (hpw : u.password = password) (hban : u.status = "banned")
    (htok : u.session_token = some t) (hval : u.token_valid = true) :
    login1 users identifier password = .bannedRejected ∧
    authenticateToken1 (u :: rest) (some t) = .authed u := by
  constructor
  · simp [login1, hfind, hpw, hban]
  · simp [authenticateToken1, List.find?, htok, hval]

/-- Witness for `c9_amended_banned_login_rejected` at a concrete banned
user. -/
theorem c9_amended_witness :
    login1 [bannedUser1] "m@example.com" "pw" = .bannedRejected ∧
    authenticateToken1 [bannedUser1] (some "tok9") = .authed bannedUser1 := by
  have hp : (fun u : User1 => decide (u.email.toLower = "m@example.com".toLower)
      || decide (u.username.toLower = "m@example.com".toLower)) bannedUser1 = true := by
    have e1 : bannedUser1.email.toLower = "m@example.com".toLower := rfl
    simp [e1]
  exact c9_amended_banned_login_rejected [bannedUser1] "m@example.com" "pw" bannedUser1 "tok9" []
    (List.find?_cons_of_pos _ hp) rfl rfl rfl rfl

/-- C9 counterexample.  A banned account holding a valid session token
authenticates through part_001's `authenticateToken` (which never reads
`status`) and then successfully invokes the metered generate endpoint,
spending points — refuting the claim that a banned account can never
authenticate for and invoke a metered call. -/
theorem c9_counterexample_banned_token_invokes_generate :
    bannedUser1.status = "banned" ∧
    authenticateToken1 [bannedUser1] (some "tok9") = .authed bannedUser1 ∧
    generate1 bannedUser1.points bannedUser1.points 5 "generateImages" .ok
      = (.success 5, 5) :=
  ⟨rfl, rfl, rfl⟩

/-- Helper for C10: part_000's generate never commits a negative balance
from a non-negative one — a success debits a cost that the locked check just
bounded by the balance, and every other outcome leaves the balance
unchanged. -/
theorem generate0_points_nonneg (points : Int) (s : Settings0) (removeWatermark : Bool)
    (p : Payload) (provider : ProviderOutcome) (h : 0 ≤ points) :
    0 ≤ (generate0 points s removeWatermark p provider).2.1 := by
  by_cases hlt : points < resolveCost0 s removeWatermark p
  · simpa [generate0, hlt] using h
  · by_cases hb : (p.type = "generateImages" || p.type = "generateContent" ||
        p.type = "rewrite" || p.type = "generate-tweets") = true
    · cases provider <;> by_cases htb : textualBranch0 p = true <;>
        simp [generate0, hlt, hb, htb] <;> omega
    · simpa [generate0, hlt, hb] using h

/-- C10 (amended).  Under part_000's `SELECT ... FOR UPDATE` discipline the
calls of one user are serialized, every call re-reads the balance under the
lock and debits only when affordable, so for any sequence of metered calls
from a non-negative balance the final balance equals the initial balance
minus the total charged to successful calls and never goes negative.  The
claim fails for the unlocked part_001/server.js handlers, where two
interleaved requests overspend (see the counterexample). -/
theorem c10_amended_locked_no_overspend (calls : List Call0) (init : Int)
    (hinit : 0 ≤ init) :
    (runLocked0 init calls).1 = init - (runLocked0 init calls).2 ∧
    0 ≤ (runLocked0 init calls).1 := by
  induction calls generalizing init with
  | nil => simpa [runLocked0] using hinit
  | cons c rest ih =>
    have h1 : 0 ≤ (generate0 init c.s c.removeWatermark c.payload c.provider).2.1 :=
      generate0_points_nonneg _ _ _ _ _ hinit
    obtain ⟨ha, hb⟩ := ih (generate0 init c.s c.removeWatermark c.payload c.provider).2.1 h1
    simp only [runLocked0]
    exact ⟨by omega, hb⟩

/-- Witness for `c10_amended_locked_no_overspend`: two successful
image-create calls at price 5 from balance 10. -/
theorem c10_amended_witness :
    (runLocked0 10 [sampleCall0, sampleCall0]).1
      = 10 - (runLocked0 10 [sampleCall0, sampleCall0]).2 ∧
    0 ≤ (runLocked0 10 [sampleCall0, sampleCall0]).1 :=
  c10_amended_locked_no_overspend [sampleCall0, sampleCall0] 10 (by decide)

/-- C10 counterexample.  part_001 checks the auth-time snapshot and debits
unconditionally: in the interleaving where both requests snapshot the
balance 10 before either debits, two cost-10 calls both pass the check and
both commit, driving the final balance to -10 — the final balance of a
sequence of concurrent metered calls is negative, refuting the claim as
stated. -/
theorem c10_counterexample_snapshot_race_overspend :
    (runRace 10 10 10 [true, false, true, false]).balance = -10 ∧
    (runRace 10 10 10 [true, false, true, false]).r1 = .succeeded 10 ∧
    (runRace 10 10 10 [true, false, true, false]).r2 = .succeeded 10 ∧
    (runRace 10 10 10 [true, false, true, false]).balance < 0 :=
  ⟨rfl, rfl, rfl, by decide⟩

end Tomato
